import Mathlib

/-!
# Verification of the browser-hooks adapter library

Shallow embedding, in Lean 4, of the adapter ("hook") functions of the
browser-hooks repository, faithful to the TypeScript sources under `src/`.
Native platform behaviour (which globals exist, what native calls return) is
an explicit environment parameter; every native invocation an operation makes
is recorded in a trace, so "performs no native call" is a statement about the
trace being empty. JavaScript errors are modelled as a name/message pair;
a thrown error or rejected promise is `Except.error`, a resolved value is
`Except.ok`.
-/

/-- A JavaScript `Error` / `DOMException`: a name and a message.
`new Error(msg)` has name "Error"; `new DOMException('Aborted','AbortError')`
has name "AbortError" and message "Aborted". -/
structure JsError where
  name : String
  message : String
deriving DecidableEq, Repr

/-- `new Error(msg)` -/
def jsError (msg : String) : JsError := ⟨"Error", msg⟩

/-- `new DOMException('Aborted', 'AbortError')` -/
def abortError : JsError := ⟨"AbortError", "Aborted"⟩

/-- The native platform calls the adapters can make; each operation returns
the list of native calls it performed, in order. -/
inductive NativeCall where
  | newBroadcastChannel (name : String)
  | bcPostMessage
  | bcClose
  | permissionsQuery (name : String)
  | idleRequestPermission
  | newIdleDetector
  | idleDetectorStart
  | navigatorShare
  | navigatorCanShare
  | clipboardWriteText
  | notificationRequestPermission
  | newNotification (title : String)
  | serviceWorkerReady
  | pushManagerSubscribe
  | getUserMedia
  | newMediaRecorder
  | mediaRecorderStart
  | requestIdleCallback
deriving DecidableEq, Repr

/-! ## JSON values and `useLocalStorage` (src/hooks/useLocalStorage.ts)

JSON-serializable values are modelled by the `JValue` AST (numbers abstracted
to `Int`).  `window.localStorage` stores, per key, the serialized form of a
value; since the platform's `JSON.parse ∘ JSON.stringify` is the identity on
JSON-serializable values (the hypothesis of every claim that uses it), the
store is modelled as a key → `JValue` association list.  `JSON.stringify`
never produces the empty string, so the source's falsy `item ?` test coincides
with presence of the key, which the model reflects. -/

inductive JValue where
  | jnull
  | jbool (b : Bool)
  | jnum (n : Int)
  | jstr (s : String)
  | jarr (xs : List JValue)
  | jobj (fields : List (String × JValue))

/-- `value === null` (the adapter receives a JSON value, so only `jnull`
is `null`). -/
def JValue.isNull : JValue → Bool
  | .jnull => true
  | _ => false

/-- The browser's localStorage, as a key → stored-value association list. -/
def LocalStore := List (String × JValue)

def storeGet (st : LocalStore) (key : String) : Option JValue :=
  match st with
  | [] => none
  | (k, v) :: rest => if k = key then some v else storeGet rest key

def storeSet (st : LocalStore) (key : String) (v : JValue) : LocalStore :=
  match st with
  | [] => [(key, v)]
  | (k, w) :: rest => if k = key then (k, v) :: rest else (k, w) :: storeSet rest key v

def storeRemove (st : LocalStore) (key : String) : LocalStore :=
  match st with
  | [] => []
  | (k, w) :: rest => if k = key then storeRemove rest key else (k, w) :: storeRemove rest key

/-- `useLocalStorage(key, initialValue).getValue()`:
`if (!key) return initialValue; const item = localStorage.getItem(key);
return item ? JSON.parse(item) : initialValue;` (the only falsy string key
is `""`). -/
def getValue (st : LocalStore) (key : String) (initialValue : JValue) : JValue :=
  if key = "" then initialValue
  else
    match storeGet st key with
    | some v => v
    | none => initialValue

/-- `useLocalStorage(key, initialValue).setValue(value)`:
`if (!key) return; if (value === undefined || value === null)
localStorage.removeItem(key); else localStorage.setItem(key, JSON.stringify(value));`
(`JValue.jnull` models the `null` argument). -/
def setValue (st : LocalStore) (key : String) (v : JValue) : LocalStore :=
  if key = "" then st
  else if v.isNull then storeRemove st key
  else storeSet st key v

/-! ## Listener registries (the `new Set<(state) => void>()` pattern)

Every adapter keeps its subscribers in a JS `Set` of callback functions and
notifies them with `listeners.forEach(l => l(state))`.  A `Set` holds each
function at most once, iterates in insertion order, and `delete` removes one
element; callbacks are identified by `Nat` ids.  Invoking a callback with a
snapshot is recorded as a `(callback, snapshot)` event. -/

/-- `listeners.add(cb)`: insertion-ordered, no duplicates. -/
def listenersAdd (l : List Nat) (cb : Nat) : List Nat :=
  if cb ∈ l then l else l ++ [cb]

/-- `listeners.delete(cb)`. -/
def listenersDelete (l : List Nat) (cb : Nat) : List Nat :=
  l.filter (fun x => x ≠ cb)

/-- `listeners.forEach(listener => listener(state))`: the invocation events,
in registration order. -/
def notifyAll {σ : Type} (l : List Nat) (st : σ) : List (Nat × σ) :=
  l.map (fun cb => (cb, st))

/-! ## `useBroadcastChannel` (src/hooks/useBroadcastChannel.ts) -/

structure BroadcastChannelState where
  isSupported : Bool
  channelName : String
  isConnected : Bool
deriving DecidableEq, Repr

/-- The fields a `Partial<BroadcastChannelState>` may carry. -/
structure BCPatch where
  isSupported : Option Bool := none
  channelName : Option String := none
  isConnected : Option Bool := none
deriving DecidableEq, Repr

/-- `{ ...state, ...newState }`. -/
def bcMerge (s : BroadcastChannelState) (p : BCPatch) : BroadcastChannelState :=
  ⟨p.isSupported.getD s.isSupported,
   p.channelName.getD s.channelName,
   p.isConnected.getD s.isConnected⟩

/-- What the platform does on the calls `useBroadcastChannel` makes. -/
structure BCEnv where
  hasBroadcastChannel : Bool
  ctorThrows : Bool
  postThrows : Bool

/-- The closure state of one `useBroadcastChannel(channelName)` instance:
the snapshot, whether `channel` is non-null, and the listener registry. -/
structure BCAdapter where
  state : BroadcastChannelState
  channel : Bool
  listeners : List Nat
deriving Repr

/-- `updateState(newState)`: replace the snapshot by the shallow merge and
notify every listener with the new snapshot. -/
def bcUpdateState (a : BCAdapter) (p : BCPatch) : BCAdapter × List (Nat × BroadcastChannelState) :=
  let st := bcMerge a.state p
  ({ a with state := st }, notifyAll a.listeners st)

/-- `connect()`: throws when unsupported; when `channel` is already non-null
does nothing; otherwise constructs the native channel (recording the attempt),
setting `isConnected` to whether construction succeeded. -/
def bcConnect (env : BCEnv) (a : BCAdapter) :
    Except JsError Unit × BCAdapter × List NativeCall :=
  if !a.state.isSupported then
    (.error (jsError "BroadcastChannel API is not supported"), a, [])
  else if a.channel then
    (.ok (), a, [])
  else if env.ctorThrows then
    (.ok (), (bcUpdateState a { isConnected := some false }).1,
      [.newBroadcastChannel a.state.channelName])
  else
    (.ok (), (bcUpdateState { a with channel := true } { isConnected := some true }).1,
      [.newBroadcastChannel a.state.channelName])

/-- `useBroadcastChannel(channelName)` construction: probe
`'BroadcastChannel' in window`, initial snapshot, then `connect()` when
supported. -/
def mkBroadcastChannel (env : BCEnv) (channelName : String) :
    BCAdapter × List NativeCall :=
  let a : BCAdapter :=
    ⟨⟨env.hasBroadcastChannel, channelName, false⟩, false, []⟩
  if a.state.isSupported then
    let r := bcConnect env a
    (r.2.1, r.2.2)
  else
    (a, [])

/-- `postMessage(message)`: reconnect if the channel is null, throw
`'Channel is not connected'` when still unusable, then delegate to the native
`postMessage`; a native throw is caught and turned into `false`. -/
def bcPostMessage (env : BCEnv) (a : BCAdapter) :
    Except JsError Bool × BCAdapter × List NativeCall :=
  if !a.channel then
    match bcConnect env a with
    | (Except.error e, a', t) => (Except.error e, a', t)
    | (Except.ok _, a', t) =>
        if !a'.channel || !a'.state.isConnected then
          (Except.error (jsError "Channel is not connected"), a', t)
        else if env.postThrows then
          (Except.ok false, a', t ++ [NativeCall.bcPostMessage])
        else
          (Except.ok true, a', t ++ [NativeCall.bcPostMessage])
  else
    if !a.channel || !a.state.isConnected then
      (Except.error (jsError "Channel is not connected"), a, [])
    else if env.postThrows then
      (Except.ok false, a, [NativeCall.bcPostMessage])
    else
      (Except.ok true, a, [NativeCall.bcPostMessage])

/-- `subscribe(callback)`: add to the registry and invoke the callback once,
synchronously, with the current snapshot. -/
def bcSubscribe (a : BCAdapter) (cb : Nat) :
    BCAdapter × List (Nat × BroadcastChannelState) :=
  ({ a with listeners := listenersAdd a.listeners cb }, [(cb, a.state)])

/-- The disposer returned by `subscribe`: `() => listeners.delete(callback)`. -/
def bcUnsubscribe (a : BCAdapter) (cb : Nat) : BCAdapter :=
  { a with listeners := listenersDelete a.listeners cb }

/-! ## `useWebShare` (src/index.ts bundle, useWebShare.ts) -/

/-- What the platform exposes and does for `useWebShare`. -/
structure WebShareEnv where
  hasShare : Bool
  hasCanShare : Bool
  canShareResult : Bool
  shareResult : Except JsError Unit

/-- The share payload, to the extent the code inspects it
(`data.files` truthiness). -/
structure ShareData where
  hasFiles : Bool

/-- `useWebShare()`: `isSupported = 'share' in navigator`,
`isFilesSupported = 'canShare' in navigator`. -/
structure WebShareAdapter where
  isSupported : Bool
  isFilesSupported : Bool
deriving DecidableEq, Repr

def mkWebShare (env : WebShareEnv) : WebShareAdapter :=
  ⟨env.hasShare, env.hasCanShare⟩

/-- `useWebShare().share(data)`: resolves `false` when unsupported, when file
sharing is unavailable or refused, when the user aborted, and on any native
error; resolves `true` on success.  It never rejects. -/
def webShareShare (env : WebShareEnv) (w : WebShareAdapter) (d : ShareData) :
    Except JsError Bool × List NativeCall :=
  if !w.isSupported then (Except.ok false, [])
  else if d.hasFiles && !w.isFilesSupported then (Except.ok false, [])
  else if d.hasFiles && w.isFilesSupported && !env.canShareResult then
    (Except.ok false, [NativeCall.navigatorCanShare])
  else
    let pre := if d.hasFiles && w.isFilesSupported then [NativeCall.navigatorCanShare] else []
    match env.shareResult with
    | Except.ok _ => (Except.ok true, pre ++ [NativeCall.navigatorShare])
    | Except.error _ => (Except.ok false, pre ++ [NativeCall.navigatorShare])

/-! ## `useNotifications` (src/hooks/useNotifications.ts) -/

structure NotificationsEnv where
  hasNotification : Bool
  nativePermission : String
  requestResult : Except JsError String
  ctorThrows : Bool

structure NotificationState where
  isSupported : Bool
  permission : String
  error : Option JsError
deriving DecidableEq, Repr

/-- `useNotifications()` initial state: probe `'Notification' in window`;
`permission` read from the native global when it exists, else `'denied'`. -/
def mkNotifications (env : NotificationsEnv) : NotificationState :=
  ⟨env.hasNotification,
   if env.hasNotification then env.nativePermission else "denied",
   none⟩

/-- `requestPermission()`: resolves `'denied'` when unsupported (no native
call); otherwise delegates to `Notification.requestPermission()`, resolving
`'denied'` when that throws. -/
def notificationsRequestPermission (env : NotificationsEnv) (st : NotificationState) :
    String × List NativeCall :=
  if !st.isSupported then ("denied", [])
  else
    match env.requestResult with
    | Except.ok r => (r, [NativeCall.notificationRequestPermission])
    | Except.error _ => ("denied", [NativeCall.notificationRequestPermission])

/-- `show(title, options)`: resolves `null` when unsupported (no native call);
otherwise requests permission, and resolves `null` (after logging) whenever
permission is not granted or construction throws; resolves the notification
handle on success.  It never rejects. -/
def notificationsShow (env : NotificationsEnv) (st : NotificationState) (title : String) :
    Except JsError (Option Unit) × List NativeCall :=
  if !st.isSupported then (Except.ok none, [])
  else
    let (perm, t) := notificationsRequestPermission env st
    if perm ≠ "granted" then (Except.ok none, t)
    else if env.ctorThrows then (Except.ok none, t ++ [NativeCall.newNotification title])
    else (Except.ok (some ()), t ++ [NativeCall.newNotification title])

/-! ## `useClipboard` (src/unnamed/part_000-series, useClipboard.ts) -/

structure ClipboardEnv where
  hasClipboard : Bool
  secureContext : Bool
  writeTextResult : Except JsError Unit

/-- `ClipboardState`: note it has no `lastError`/`error` field at all. -/
structure ClipboardState where
  isSupported : Bool
  hasPermission : Bool
  isSecureContext : Bool
deriving DecidableEq, Repr

def mkClipboardState (env : ClipboardEnv) : ClipboardState :=
  ⟨env.hasClipboard, false, env.secureContext⟩

/-- `writeText(text)`: throws `'Clipboard API is not supported'` when
unsupported; otherwise delegates to `navigator.clipboard.writeText` and
resolves `true` on success, but catches a native failure, logs it, and
resolves `false` — leaving the snapshot untouched. -/
def clipboardWriteText (env : ClipboardEnv) (st : ClipboardState) :
    Except JsError Bool × ClipboardState × List NativeCall :=
  if !st.isSupported then
    (Except.error (jsError "Clipboard API is not supported"), st, [])
  else
    match env.writeTextResult with
    | Except.ok _ => (Except.ok true, st, [NativeCall.clipboardWriteText])
    | Except.error _ => (Except.ok false, st, [NativeCall.clipboardWriteText])

/-! ## `usePushAPI` (src/hooks/usePushAPI.ts) -/

structure PushAPIState where
  isSupported : Bool
  subscription : Option Nat
  permissionState : String
  error : Option JsError
deriving DecidableEq, Repr

structure PushPatch where
  isSupported : Option Bool := none
  subscription : Option (Option Nat) := none
  permissionState : Option String := none
  error : Option (Option JsError) := none

/-- `{ ...state, ...newState }` for `PushAPIState`. -/
def pushMerge (s : PushAPIState) (p : PushPatch) : PushAPIState :=
  ⟨p.isSupported.getD s.isSupported,
   p.subscription.getD s.subscription,
   p.permissionState.getD s.permissionState,
   p.error.getD s.error⟩

/-- `setError(error)`: `updateState({ error })`. -/
def pushSetError (s : PushAPIState) (e : JsError) : PushAPIState :=
  pushMerge s { error := some (some e) }

/-- `clearError()`: `updateState({ error: null })`. -/
def pushClearError (s : PushAPIState) : PushAPIState :=
  pushMerge s { error := some none }

structure PushEnv where
  supported : Bool
  swReady : Except JsError Unit
  pmSubscribe : Except JsError Nat

/-- `createPushAPI`'s `subscribe(options)` operation: throws when
unsupported; otherwise clears the error, awaits `serviceWorker.ready` and
`pushManager.subscribe`, and on a native failure records it via `setError`
and rethrows. -/
def pushSubscribeOp (env : PushEnv) (st : PushAPIState) :
    Except JsError Nat × PushAPIState × List NativeCall :=
  if !st.isSupported then
    (Except.error (jsError "Push API is not supported in this browser"), st, [])
  else
    let st1 := pushClearError st
    match env.swReady with
    | Except.error e => (Except.error e, pushSetError st1 e, [NativeCall.serviceWorkerReady])
    | Except.ok _ =>
        match env.pmSubscribe with
        | Except.error e =>
            (Except.error e, pushSetError st1 e,
              [NativeCall.serviceWorkerReady, NativeCall.pushManagerSubscribe])
        | Except.ok sub =>
            (Except.ok sub, pushMerge st1 { subscription := some (some sub) },
              [NativeCall.serviceWorkerReady, NativeCall.pushManagerSubscribe])

/-- `onStateChange(callback)`: `listeners.add(callback); callback(state);
return () => listeners.delete(callback);`. -/
def pushOnStateChange (listeners : List Nat) (st : PushAPIState) (cb : Nat) :
    List Nat × List (Nat × PushAPIState) :=
  (listenersAdd listeners cb, [(cb, st)])

/-- The module-scoped memoization in `usePushAPI`: `instance` holds the
promise of the first `createPushAPI()` call (instances identified by the
creation counter's value at their creation).  One call:
`if (!instance) instance = createPushAPI(); return instance;`. -/
def usePushAPICall (instanceVar : Option Nat) (counter : Nat) :
    Option Nat × Nat × Nat :=
  match instanceVar with
  | none => (some counter, counter + 1, counter)
  | some i => (some i, counter, i)

/-! ## `useScheduler` (src/hooks/useScheduler.ts) -/

structure SchedulerState where
  isSupported : Bool
  activeTaskCount : Nat
  priorityLevels : List String
deriving DecidableEq, Repr

structure SchedulerPatch where
  isSupported : Option Bool := none
  activeTaskCount : Option Nat := none
  priorityLevels : Option (List String) := none

def schedulerMerge (s : SchedulerState) (p : SchedulerPatch) : SchedulerState :=
  ⟨p.isSupported.getD s.isSupported,
   p.activeTaskCount.getD s.activeTaskCount,
   p.priorityLevels.getD s.priorityLevels⟩

/-- Snapshot references: a heap of snapshots (`heap r` is the object behind
reference `r`), the reference the adapter's `state` variable currently holds,
and the next fresh reference.  A subscriber keeps the reference it was
notified with; mutation-in-place versus wholesale replacement differ in
whether old references' contents change. -/
structure SnapshotMem (σ : Type) where
  heap : Nat → σ
  cur : Nat
  next : Nat

/-- `Object.assign(state, newState)` (useScheduler's `updateState`): write the
merged value through the CURRENT reference; the snapshot object every previous
subscriber holds is this same object. -/
def schedulerUpdateState (m : SnapshotMem SchedulerState) (p : SchedulerPatch) :
    SnapshotMem SchedulerState :=
  { m with heap := fun r => if r = m.cur then schedulerMerge (m.heap m.cur) p else m.heap r }

/-- `state = { ...state, ...newState }` (useBroadcastChannel's `updateState`):
allocate a fresh object holding the merge and repoint `state` at it; the old
object is untouched. -/
def bcUpdateStateMem (m : SnapshotMem BroadcastChannelState) (p : BCPatch) :
    SnapshotMem BroadcastChannelState :=
  { heap := fun r => if r = m.next then bcMerge (m.heap m.cur) p else m.heap r,
    cur := m.next,
    next := m.next + 1 }

/-- `useScheduler().wait(signal)` on the fallback path (no native
`scheduler.wait`): an already-aborted signal is rejected with
`DOMException('Aborted','AbortError')` before `requestIdleCallback` is ever
invoked; otherwise an idle callback is registered.  `wait` never touches the
adapter state (which has no error field at all). -/
def schedulerWaitFallback (signalAborted : Bool) :
    Except JsError Unit × List NativeCall :=
  if signalAborted then (Except.error abortError, [])
  else (Except.ok (), [NativeCall.requestIdleCallback])

/-! ## `useMediaRecorder` (src/hooks/useMediaRecorder.ts) -/

structure MediaRecorderState where
  isSupported : Bool
  isRecording : Bool
  isPaused : Bool
  mimeType : Option String
  error : Option JsError
  stream : Bool
  permissionState : Option String
deriving DecidableEq, Repr

structure MediaRecorderEnv where
  micState : String
  camState : String
  gumResult : Except JsError Unit
  ctorThrows : Bool

def mrSetError (s : MediaRecorderState) (e : JsError) : MediaRecorderState :=
  { s with error := some e }

def mrClearError (s : MediaRecorderState) : MediaRecorderState :=
  { s with error := none }

/-- `checkPermissions(constraints)`: queries `microphone` / `camera` as the
constraints demand and combines: any denied → `'denied'`, all granted →
`'granted'`, else `'prompt'`; the result is merged into `permissionState`. -/
def mrCheckPermissions (env : MediaRecorderEnv) (st : MediaRecorderState)
    (audio video : Bool) : String × MediaRecorderState × List NativeCall :=
  let st1 := mrClearError st
  let t := (if audio then [NativeCall.permissionsQuery "microphone"] else []) ++
           (if video then [NativeCall.permissionsQuery "camera"] else [])
  let states := (if audio then [env.micState] else []) ++
                (if video then [env.camState] else [])
  let result :=
    if states.any (fun s => s = "denied") then "denied"
    else if states.all (fun s => s = "granted") then "granted"
    else "prompt"
  (result, { st1 with permissionState := some result }, t)

/-- `start(options)`: throws when unsupported (outside the try, so no
`setError`); then clears the error and throws
`'Recording already in progress'` — recorded via `setError` by the catch —
when a recorder already exists, all before any native call; otherwise checks
permissions, acquires the stream, constructs the recorder and starts it. -/
def mediaRecorderStart (env : MediaRecorderEnv) (st : MediaRecorderState)
    (recorderActive : Bool) (audio video : Bool) :
    Except JsError Unit × MediaRecorderState × Bool × List NativeCall :=
  if !st.isSupported then
    (Except.error (jsError "MediaRecorder API is not supported in this browser"),
      st, recorderActive, [])
  else
    let st1 := mrClearError st
    if recorderActive then
      let e := jsError "Recording already in progress"
      (Except.error e, mrSetError st1 e, recorderActive, [])
    else
      let (perm, st2, t) := mrCheckPermissions env st1 audio video
      if perm = "denied" then
        let e := jsError "Permission denied for media access"
        (Except.error e, mrSetError st2 e, false, t)
      else
        match env.gumResult with
        | Except.error e =>
            (Except.error e, mrSetError (mrSetError st2 e) e, false,
              t ++ [NativeCall.getUserMedia])
        | Except.ok _ =>
            let st3 := { st2 with stream := true }
            if env.ctorThrows then
              let e := jsError "MediaRecorder construction failed"
              (Except.error e, mrSetError st3 e, false,
                t ++ [NativeCall.getUserMedia, NativeCall.newMediaRecorder])
            else
              (Except.ok (), st3, true,
                t ++ [NativeCall.getUserMedia, NativeCall.newMediaRecorder,
                      NativeCall.mediaRecorderStart])

/-! ## `useIdleDetection` (src/hooks/useWebHID.ts bundle) -/

structure IdleState where
  isSupported : Bool
  isIdle : Bool
  isScreenLocked : Bool
  error : Option JsError
deriving DecidableEq, Repr

/-- Platform behaviour for `useIdleDetection`: the result of the
`idle-detection` permission query, of `IdleDetector.requestPermission()`, and
of `detector.start({threshold, signal})` — the latter a function of whether
the passed signal is already aborted (the platform rejects with an
`AbortError` then). -/
structure IdleEnv where
  supported : Bool
  permQueryState : String
  requestPermissionResult : String
  detectorStart : Bool → Except JsError Unit

def idleSetError (s : IdleState) (e : JsError) : IdleState :=
  { s with error := some e }

def idleClearError (s : IdleState) : IdleState :=
  { s with error := none }

/-- `requestPermission()`: queries `permissions.query({name:'idle-detection'})`,
returns its state unless it is `'prompt'`, in which case it calls
`IdleDetector.requestPermission()`. -/
def idleRequestPermission (env : IdleEnv) (st : IdleState) :
    Except JsError String × IdleState × List NativeCall :=
  if !st.isSupported then
    (Except.error (jsError "Idle Detection API is not supported in this browser"), st, [])
  else
    let st1 := idleClearError st
    if env.permQueryState ≠ "prompt" then
      (Except.ok env.permQueryState, st1, [NativeCall.permissionsQuery "idle-detection"])
    else
      (Except.ok env.requestPermissionResult, st1,
        [NativeCall.permissionsQuery "idle-detection", NativeCall.idleRequestPermission])

/-- `start(options)`: throws when unsupported; otherwise clears the error and
requests permission — with NO check of `options.signal` beforehand, so the
native permission query runs even for an already-aborted signal.  When
permission is granted it constructs an `IdleDetector` and awaits
`detector.start({threshold, signal: options.signal})`; any throw from that
(including the platform's `AbortError` for an aborted signal) reaches the
outer catch, which records it in `state.error` via `setError` and rethrows. -/
def idleStart (env : IdleEnv) (st : IdleState) (signalAborted : Bool) :
    Except JsError Unit × IdleState × List NativeCall :=
  if !st.isSupported then
    (Except.error (jsError "Idle Detection API is not supported in this browser"), st, [])
  else
    match idleRequestPermission env (idleClearError st) with
    | (Except.error e, st1, t) => (Except.error e, idleSetError st1 e, t)
    | (Except.ok perm, st1, t) =>
        if perm ≠ "granted" then
          let e := jsError "Idle Detection permission not granted"
          (Except.error e, idleSetError st1 e, t)
        else
          match env.detectorStart signalAborted with
          | Except.error e =>
              (Except.error e, idleSetError st1 e,
                t ++ [NativeCall.newIdleDetector, NativeCall.idleDetectorStart])
          | Except.ok _ =>
              (Except.ok (), st1,
                t ++ [NativeCall.newIdleDetector, NativeCall.idleDetectorStart])

/-! ## Concrete instances used in the theorems -/

/-- A scheduler adapter's memory right after construction: one snapshot
object (reference 0) holding the initial state, `state` pointing at it. -/
def schedMem0 : SnapshotMem SchedulerState :=
  ⟨fun _ => ⟨true, 0, ["user-blocking", "user-visible", "background"]⟩, 0, 1⟩

/-- A platform where idle detection is present, permission is granted, and
`detector.start` rejects with `AbortError` exactly when the signal passed to
it is already aborted. -/
def idleEnvAborted : IdleEnv :=
  ⟨true, "granted", "granted",
   fun aborted => if aborted then Except.error abortError else Except.ok ()⟩

/-- The idle adapter's initial state on that platform. -/
def idleState0 : IdleState := ⟨true, false, false, none⟩

/-- A platform where the clipboard exists but the native `writeText` call
fails. -/
def clipEnvFail : ClipboardEnv := ⟨true, true, Except.error (jsError "write failed")⟩

/-- A platform with no `BroadcastChannel` global. -/
def bcEnvNo : BCEnv := ⟨false, false, false⟩

/-- A platform with no `navigator.share`. -/
def wsEnvNo : WebShareEnv := ⟨false, false, false, Except.ok ()⟩

/-- A platform with no `Notification` global. -/
def nEnvNo : NotificationsEnv := ⟨false, "denied", Except.ok "granted", false⟩

/-- A platform with no `navigator.clipboard`. -/
def cEnvNo : ClipboardEnv := ⟨false, true, Except.ok ()⟩

/-- A push platform (contents irrelevant when the adapter is unsupported). -/
def pEnvNo : PushEnv := ⟨false, Except.ok (), Except.ok 0⟩

/-- `createPushAPI` state on a platform with no Push support. -/
def pstNo : PushAPIState := ⟨false, none, "denied", none⟩

/-- A push platform whose `pushManager.subscribe` rejects. -/
def pEnvFail : PushEnv :=
  ⟨true, Except.ok (), Except.error (jsError "subscribe failed")⟩

/-- `createPushAPI` state on a supporting platform. -/
def pstOk : PushAPIState := ⟨true, none, "denied", none⟩

/-- A media platform (contents irrelevant when the adapter is unsupported). -/
def mEnvNo : MediaRecorderEnv := ⟨"prompt", "prompt", Except.ok (), false⟩

/-- `useMediaRecorder` state on a platform with no `MediaRecorder` global. -/
def mstNo : MediaRecorderState := ⟨false, false, false, none, none, false, none⟩

/-- `useMediaRecorder` state on a supporting platform. -/
def mstOk : MediaRecorderState := ⟨true, false, false, none, none, false, none⟩

/-- An idle platform (contents irrelevant when the adapter is unsupported). -/
def iEnvNo : IdleEnv := ⟨false, "prompt", "denied", fun _ => Except.ok ()⟩

/-- `useIdleDetection` state on a platform with no `IdleDetector` global. -/
def istNo : IdleState := ⟨false, false, false, none⟩

/-- A broadcast-channel adapter with an open channel and two subscribers. -/
def bcAdapterOpen : BCAdapter := ⟨⟨true, "ch", true⟩, true, [1, 2]⟩

/-! # Theorems -/
theorem storeGet_storeSet_self (st : LocalStore) (key : String) (v : JValue) :
    storeGet (storeSet st key v) key = some v := by
  induction st with
  | nil => simp [storeSet, storeGet]
  | cons hd tl ih =>
      obtain ⟨k, w⟩ := hd
      by_cases h : k = key
      · simp [storeSet, storeGet, h]
      · simp [storeSet, storeGet, h, ih]

theorem storeGet_storeRemove_self (st : LocalStore) (key : String) :
    storeGet (storeRemove st key) key = none := by
  induction st with
  | nil => simp [storeRemove, storeGet]
  | cons hd tl ih =>
      obtain ⟨k, w⟩ := hd
      by_cases h : k = key
      · simp [storeRemove, h, ih]
      · simp [storeRemove, storeGet, h, ih]

/-- C3. The claim "set(key, v) followed by get(key) returns a value deep-equal
to v for every JSON-serializable v" fails at v = null: `setValue(null)` removes
the entry, so `getValue()` returns the configured initial value (here `0`),
which is not deep-equal to `null`. -/
theorem localStorage_roundtrip_fails_on_null :
    getValue (setValue [] "k" JValue.jnull) "k" (JValue.jnum 0) = JValue.jnum 0 ∧
    JValue.jnum 0 ≠ JValue.jnull := by
  refine ⟨rfl, ?_⟩
  intro h
  exact JValue.noConfusion h

/-- C3 (amended). For every truthy key and every JSON-serializable value other
than `null`, `setValue(v)` followed by `getValue()` returns a value deep-equal
to `v`; `setValue(null)` instead removes the entry. -/
theorem localStorage_roundtrip (st : LocalStore) (key : String) (v init : JValue)
    (hkey : key ≠ "") (hv : v.isNull = false) :
    getValue (setValue st key v) key init = v := by
  simp [getValue, setValue, hkey, hv, storeGet_storeSet_self]

/-- Witness for C3 (amended) at st = [], key = "k", v = true, init = null. -/
theorem localStorage_roundtrip_witness :
    getValue (setValue [] "k" (JValue.jbool true)) "k" JValue.jnull = JValue.jbool true :=
  localStorage_roundtrip [] "k" (JValue.jbool true) JValue.jnull (by decide) rfl

/-- C9. For `useLocalStorage("k", initialValue)`: after `setValue({a:1})`,
`getValue()` returns `{a:1}`; after then `setValue(null)`, the stored entry is
removed (`getItem` yields nothing) and `getValue()` returns the configured
`initialValue` — for every prior store contents and every `initialValue`. -/
theorem localStorage_set_get_null_scenario (st : LocalStore) (init : JValue) :
    getValue (setValue st "k" (JValue.jobj [("a", JValue.jnum 1)])) "k" init
      = JValue.jobj [("a", JValue.jnum 1)] ∧
    storeGet (setValue (setValue st "k" (JValue.jobj [("a", JValue.jnum 1)]))
        "k" JValue.jnull) "k" = none ∧
    getValue (setValue (setValue st "k" (JValue.jobj [("a", JValue.jnum 1)]))
        "k" JValue.jnull) "k" init = init := by
  refine ⟨?_, ?_, ?_⟩
  · simp [getValue, setValue, JValue.isNull, storeGet_storeSet_self]
  · simp [setValue, JValue.isNull, storeGet_storeRemove_self]
  · simp [getValue, setValue, JValue.isNull, storeGet_storeRemove_self]


/-- C1. Counterexample: on a platform without `navigator.share`, the
constructed `useWebShare()` has its support flag false and `share(data)`
RESOLVES with `false` — it touches no native global, but it does not reject
or throw an "unsupported" error as the claim requires of every operation. -/
theorem webShare_unsupported_resolves_false :
    (mkWebShare wsEnvNo).isSupported = false ∧
    webShareShare wsEnvNo (mkWebShare wsEnvNo) ⟨false⟩ = (Except.ok false, []) :=
  ⟨rfl, rfl⟩

/-- C1 (amended). Constructing any adapter with the wrapped capability absent
yields a support flag equal to false, and every operation method fails fast
without invoking any native global; however the failure mode is not uniformly
an "unsupported" rejection: useBroadcastChannel.connect, useClipboard.writeText,
usePushAPI.subscribe, useMediaRecorder.start and useIdleDetection.start throw
"not supported" errors, while useWebShare.share resolves `false`,
useNotifications.show resolves `null` and useNotifications.requestPermission
resolves `'denied'`. -/
theorem unsupported_ops_fail_fast
    (bcEnv : BCEnv) (name : String) (hbc : bcEnv.hasBroadcastChannel = false)
    (wsEnv : WebShareEnv) (hws : wsEnv.hasShare = false) (d : ShareData)
    (nEnv : NotificationsEnv) (hn : nEnv.hasNotification = false) (title : String)
    (cEnv : ClipboardEnv) (hc : cEnv.hasClipboard = false)
    (pEnv : PushEnv) (pst : PushAPIState) (hp : pst.isSupported = false)
    (mEnv : MediaRecorderEnv) (mst : MediaRecorderState) (hm : mst.isSupported = false)
    (rec audio video : Bool)
    (iEnv : IdleEnv) (ist : IdleState) (hi : ist.isSupported = false) (sig : Bool) :
    mkBroadcastChannel bcEnv name = (⟨⟨false, name, false⟩, false, []⟩, []) ∧
    bcConnect bcEnv (mkBroadcastChannel bcEnv name).1
      = (Except.error (jsError "BroadcastChannel API is not supported"),
         (mkBroadcastChannel bcEnv name).1, []) ∧
    (mkWebShare wsEnv).isSupported = false ∧
    webShareShare wsEnv (mkWebShare wsEnv) d = (Except.ok false, []) ∧
    (mkNotifications nEnv).isSupported = false ∧
    notificationsShow nEnv (mkNotifications nEnv) title = (Except.ok none, []) ∧
    notificationsRequestPermission nEnv (mkNotifications nEnv) = ("denied", []) ∧
    (mkClipboardState cEnv).isSupported = false ∧
    clipboardWriteText cEnv (mkClipboardState cEnv)
      = (Except.error (jsError "Clipboard API is not supported"),
         mkClipboardState cEnv, []) ∧
    pushSubscribeOp pEnv pst
      = (Except.error (jsError "Push API is not supported in this browser"), pst, []) ∧
    mediaRecorderStart mEnv mst rec audio video
      = (Except.error (jsError "MediaRecorder API is not supported in this browser"),
         mst, rec, []) ∧
    idleStart iEnv ist sig
      = (Except.error (jsError "Idle Detection API is not supported in this browser"),
         ist, []) := by
  refine ⟨?_, ?_, ?_, ?_, ?_, ?_, ?_, ?_, ?_, ?_, ?_, ?_⟩
  · simp [mkBroadcastChannel, hbc]
  · simp [bcConnect, mkBroadcastChannel, hbc]
  · simp [mkWebShare, hws]
  · simp [webShareShare, mkWebShare, hws]
  · simp [mkNotifications, hn]
  · simp [notificationsShow, mkNotifications, hn]
  · simp [notificationsRequestPermission, mkNotifications, hn]
  · simp [mkClipboardState, hc]
  · simp [clipboardWriteText, mkClipboardState, hc]
  · simp [pushSubscribeOp, hp]
  · simp [mediaRecorderStart, hm]
  · simp [idleStart, hi]

/-- Witness for C1 (amended) with every capability absent. -/
theorem unsupported_ops_fail_fast_witness :
    mkBroadcastChannel bcEnvNo "ch" = (⟨⟨false, "ch", false⟩, false, []⟩, []) ∧
    bcConnect bcEnvNo (mkBroadcastChannel bcEnvNo "ch").1
      = (Except.error (jsError "BroadcastChannel API is not supported"),
         (mkBroadcastChannel bcEnvNo "ch").1, []) ∧
    (mkWebShare wsEnvNo).isSupported = false ∧
    webShareShare wsEnvNo (mkWebShare wsEnvNo) ⟨true⟩ = (Except.ok false, []) ∧
    (mkNotifications nEnvNo).isSupported = false ∧
    notificationsShow nEnvNo (mkNotifications nEnvNo) "hi" = (Except.ok none, []) ∧
    notificationsRequestPermission nEnvNo (mkNotifications nEnvNo) = ("denied", []) ∧
    (mkClipboardState cEnvNo).isSupported = false ∧
    clipboardWriteText cEnvNo (mkClipboardState cEnvNo)
      = (Except.error (jsError "Clipboard API is not supported"),
         mkClipboardState cEnvNo, []) ∧
    pushSubscribeOp pEnvNo pstNo
      = (Except.error (jsError "Push API is not supported in this browser"), pstNo, []) ∧
    mediaRecorderStart mEnvNo mstNo false true false
      = (Except.error (jsError "MediaRecorder API is not supported in this browser"),
         mstNo, false, []) ∧
    idleStart iEnvNo istNo true
      = (Except.error (jsError "Idle Detection API is not supported in this browser"),
         istNo, []) :=
  unsupported_ops_fail_fast bcEnvNo "ch" rfl wsEnvNo rfl ⟨true⟩ nEnvNo rfl "hi"
    cEnvNo rfl pEnvNo pstNo rfl mEnvNo mstNo rfl false true false iEnvNo istNo rfl true

/-- C2. `subscribe(cb)` (useBroadcastChannel) and `onStateChange(cb)`
(usePushAPI) register the callback and invoke it exactly once, synchronously,
with the adapter's current snapshot, before returning; the returned disposer
deregisters it. -/
theorem subscribe_replays_once (a : BCAdapter) (cb : Nat)
    (pl : List Nat) (pst : PushAPIState) :
    (bcSubscribe a cb).2 = [(cb, a.state)] ∧
    (bcSubscribe a cb).1.listeners = listenersAdd a.listeners cb ∧
    cb ∈ (bcSubscribe a cb).1.listeners ∧
    cb ∉ (bcUnsubscribe (bcSubscribe a cb).1 cb).listeners ∧
    (pushOnStateChange pl pst cb).2 = [(cb, pst)] ∧
    cb ∈ (pushOnStateChange pl pst cb).1 := by
  refine ⟨rfl, rfl, ?_, ?_, rfl, ?_⟩
  · by_cases h : cb ∈ a.listeners <;>
      simp [bcSubscribe, listenersAdd, h]
  · simp [bcUnsubscribe, listenersDelete]
  · by_cases h : cb ∈ pl <;>
      simp [pushOnStateChange, listenersAdd, h]

/-- C4. Counterexample: `useScheduler`'s `updateState` is
`Object.assign(state, newState)` — after one update, the snapshot object a
subscriber received earlier (reference 0, the adapter's current reference)
has been modified in place rather than replaced. -/
theorem scheduler_updateState_mutates_in_place :
    (schedulerUpdateState schedMem0 { activeTaskCount := some 1 }).heap 0
      ≠ schedMem0.heap 0 ∧
    (schedulerUpdateState schedMem0 { activeTaskCount := some 1 }).cur
      = schedMem0.cur := by
  refine ⟨?_, rfl⟩
  intro h
  have := congrArg SchedulerState.activeTaskCount h
  simp [schedulerUpdateState, schedMem0, schedulerMerge] at this

/-- C4 (amended). Adapters whose `updateState` is
`state = { ...state, ...newState }` (useBroadcastChannel, usePushAPI, …)
allocate a fresh snapshot per update, never touching any previously delivered
reference; `useScheduler`'s `updateState` instead uses
`Object.assign(state, newState)`, overwriting the contents of the snapshot
object already held by subscribers (same reference, merged fields). -/
theorem updateState_reference_discipline
    (m : SnapshotMem BroadcastChannelState) (p : BCPatch) (r : Nat)
    (hr : r < m.next)
    (ms : SnapshotMem SchedulerState) (ps : SchedulerPatch) :
    (bcUpdateStateMem m p).heap r = m.heap r ∧
    (bcUpdateStateMem m p).cur = m.next ∧
    (bcUpdateStateMem m p).heap (bcUpdateStateMem m p).cur
      = bcMerge (m.heap m.cur) p ∧
    (schedulerUpdateState ms ps).cur = ms.cur ∧
    (schedulerUpdateState ms ps).heap ms.cur
      = schedulerMerge (ms.heap ms.cur) ps := by
  refine ⟨?_, rfl, ?_, rfl, ?_⟩
  · simp [bcUpdateStateMem, Nat.ne_of_lt hr]
  · simp [bcUpdateStateMem]
  · simp [schedulerUpdateState]

/-- Witness for C4 (amended): a broadcast-channel adapter with one snapshot
allocated, then updated once. -/
theorem updateState_reference_discipline_witness :
    (bcUpdateStateMem ⟨fun _ => ⟨true, "ch", false⟩, 0, 1⟩
        { isConnected := some true }).heap 0 = ⟨true, "ch", false⟩ ∧
    (schedulerUpdateState schedMem0 { activeTaskCount := some 2 }).heap 0
      = ⟨true, 2, ["user-blocking", "user-visible", "background"]⟩ := by
  have h := updateState_reference_discipline
    ⟨fun _ => ⟨true, "ch", false⟩, 0, 1⟩ { isConnected := some true } 0
    (by decide) schedMem0 { activeTaskCount := some 2 }
  exact ⟨h.1, h.2.2.2.2⟩

/-- C5. Counterexample: `useClipboard.writeText` on a platform whose native
`clipboard.writeText` rejects resolves `false`: it neither rejects the
returned promise nor records the failure in the snapshot (the snapshot is
unchanged — `ClipboardState` has no `lastError` field at all). -/
theorem clipboard_writeText_swallows_error :
    clipboardWriteText clipEnvFail (mkClipboardState clipEnvFail)
      = (Except.ok false, mkClipboardState clipEnvFail,
         [NativeCall.clipboardWriteText]) := rfl

/-- C5 (amended). In adapters whose snapshot carries an error field, a failed
operation both rejects with the native error and records it in the snapshot
(usePushAPI.subscribe shown, for either native failure point); but
useClipboard.writeText (and useBroadcastChannel.postMessage) catch native
failures and resolve `false`, recording nothing. -/
theorem push_failure_rejects_and_records (env : PushEnv) (st : PushAPIState)
    (hs : st.isSupported = true) (e : JsError)
    (hfail : env.swReady = Except.error e ∨
      (env.swReady = Except.ok () ∧ env.pmSubscribe = Except.error e)) :
    (pushSubscribeOp env st).1 = Except.error e ∧
    (pushSubscribeOp env st).2.1.error = some e := by
  rcases hfail with h | ⟨h1, h2⟩
  · constructor <;>
      simp [pushSubscribeOp, hs, h, pushSetError, pushClearError, pushMerge]
  · constructor <;>
      simp [pushSubscribeOp, hs, h1, h2, pushSetError, pushClearError, pushMerge]

/-- Witness for C5 (amended): a platform whose `pushManager.subscribe`
rejects. -/
theorem push_failure_rejects_and_records_witness :
    (pushSubscribeOp pEnvFail pstOk).1 = Except.error (jsError "subscribe failed") ∧
    (pushSubscribeOp pEnvFail pstOk).2.1.error = some (jsError "subscribe failed") :=
  push_failure_rejects_and_records pEnvFail pstOk rfl (jsError "subscribe failed")
    (Or.inr ⟨rfl, rfl⟩)

/-- C6. Counterexample: `useIdleDetection.start` called with an
already-aborted signal (idle detection present, permission granted, the
platform's `detector.start` rejecting with `AbortError` for the aborted
signal) does NOT reject immediately: it first performs the native
`permissions.query('idle-detection')` call, and the resulting `AbortError` IS
recorded in the snapshot's error field by the outer catch. -/
theorem idleStart_aborted_signal_violations :
    (idleStart idleEnvAborted idleState0 true).2.2 ≠ [] ∧
    NativeCall.permissionsQuery "idle-detection"
      ∈ (idleStart idleEnvAborted idleState0 true).2.2 ∧
    (idleStart idleEnvAborted idleState0 true).1 = Except.error abortError ∧
    (idleStart idleEnvAborted idleState0 true).2.1.error = some abortError := by
  refine ⟨by decide, by decide, rfl, rfl⟩

/-- C6 (amended). `useScheduler.wait` (fallback path) started with an
already-aborted signal rejects immediately with a distinguishable
`AbortError`, performs no native call, and touches no snapshot field; but
`useIdleDetection.start` never consults the signal before acting — it still
performs the native `'idle-detection'` permission query, and the platform's
`AbortError` from `detector.start` is recorded in `state.error` as if it were
a user-facing failure. -/
theorem cancellation_policy (env : IdleEnv) (st : IdleState)
    (hs : st.isSupported = true) (hq : env.permQueryState = "granted")
    (hab : env.detectorStart true = Except.error abortError) :
    schedulerWaitFallback true = (Except.error abortError, []) ∧
    abortError.name = "AbortError" ∧
    (idleStart env st true).1 = Except.error abortError ∧
    (idleStart env st true).2.1.error = some abortError ∧
    NativeCall.permissionsQuery "idle-detection" ∈ (idleStart env st true).2.2 := by
  refine ⟨rfl, rfl, ?_, ?_, ?_⟩ <;>
    simp [idleStart, idleRequestPermission, idleClearError, idleSetError,
      hs, hq, hab]

/-- Witness for C6 (amended) on the concrete aborted-signal platform. -/
theorem cancellation_policy_witness :
    schedulerWaitFallback true = (Except.error abortError, []) ∧
    abortError.name = "AbortError" ∧
    (idleStart idleEnvAborted idleState0 true).1 = Except.error abortError ∧
    (idleStart idleEnvAborted idleState0 true).2.1.error = some abortError ∧
    NativeCall.permissionsQuery "idle-detection"
      ∈ (idleStart idleEnvAborted idleState0 true).2.2 :=
  cancellation_policy idleEnvAborted idleState0 rfl rfl rfl

/-- C7. Start-twice policy, per adapter: a second `useMediaRecorder.start`
without an intervening stop fails fast — before any native call — with
`'Recording already in progress'` (also recorded in the snapshot by the
catch); `useBroadcastChannel.connect` with the channel already open is a
complete no-op (same adapter state, no native call, no error). -/
theorem start_idempotence_policy (env : MediaRecorderEnv) (st : MediaRecorderState)
    (hs : st.isSupported = true) (audio video : Bool)
    (benv : BCEnv) (a : BCAdapter) (hch : a.channel = true)
    (hsup : a.state.isSupported = true) :
    (mediaRecorderStart env st true audio video).1
      = Except.error (jsError "Recording already in progress") ∧
    (mediaRecorderStart env st true audio video).2.2.2 = [] ∧
    (mediaRecorderStart env st true audio video).2.1.error
      = some (jsError "Recording already in progress") ∧
    bcConnect benv a = (Except.ok (), a, []) := by
  refine ⟨?_, ?_, ?_, ?_⟩ <;>
    simp [mediaRecorderStart, mrClearError, mrSetError, hs, bcConnect, hch, hsup]

/-- Witness for C7: a supported recorder already recording, and an open
broadcast channel. -/
theorem start_idempotence_policy_witness :
    (mediaRecorderStart mEnvNo mstOk true true false).1
      = Except.error (jsError "Recording already in progress") ∧
    (mediaRecorderStart mEnvNo mstOk true true false).2.2.2 = [] ∧
    (mediaRecorderStart mEnvNo mstOk true true false).2.1.error
      = some (jsError "Recording already in progress") ∧
    bcConnect bcEnvNo bcAdapterOpen = (Except.ok (), bcAdapterOpen, []) :=
  start_idempotence_policy mEnvNo mstOk rfl true false bcEnvNo bcAdapterOpen rfl rfl

/-- C8. After the disposer for callback `c1` runs, a notification reaches no
event for `c1`, while a different registered callback `c2` still receives
every update; and every registered callback receives every notification. -/
theorem unsubscribe_leaves_others (a : BCAdapter) (c1 c2 : Nat)
    (hne : c1 ≠ c2) (h2 : c2 ∈ a.listeners) :
    (∀ e ∈ notifyAll (bcUnsubscribe a c1).listeners (bcUnsubscribe a c1).state,
      e.1 ≠ c1) ∧
    (c2, (bcUnsubscribe a c1).state)
      ∈ notifyAll (bcUnsubscribe a c1).listeners (bcUnsubscribe a c1).state ∧
    ∀ c ∈ a.listeners, (c, a.state) ∈ notifyAll a.listeners a.state := by
  refine ⟨?_, ?_, ?_⟩
  · intro e he
    simp only [notifyAll, List.mem_map] at he
    obtain ⟨c, hc, rfl⟩ := he
    simp only [bcUnsubscribe, listenersDelete, List.mem_filter] at hc
    simpa using hc.2
  · simp only [notifyAll, List.mem_map]
    refine ⟨c2, ?_, rfl⟩
    simp [bcUnsubscribe, listenersDelete, List.mem_filter, h2, Ne.symm hne]
  · intro c hc
    simp only [notifyAll, List.mem_map]
    exact ⟨c, hc, rfl⟩

/-- Witness for C8: two subscribers 1 and 2; 1 unsubscribes. -/
theorem unsubscribe_leaves_others_witness :
    (∀ e ∈ notifyAll (bcUnsubscribe bcAdapterOpen 1).listeners
        (bcUnsubscribe bcAdapterOpen 1).state, e.1 ≠ 1) ∧
    (2, (bcUnsubscribe bcAdapterOpen 1).state)
      ∈ notifyAll (bcUnsubscribe bcAdapterOpen 1).listeners
        (bcUnsubscribe bcAdapterOpen 1).state ∧
    ∀ c ∈ bcAdapterOpen.listeners,
      (c, bcAdapterOpen.state) ∈ notifyAll bcAdapterOpen.listeners bcAdapterOpen.state :=
  unsubscribe_leaves_others bcAdapterOpen 1 2 (by decide) (by decide)

/-- C10. `usePushAPI` memoizes the `createPushAPI()` promise in a
module-scoped variable: from a fresh module state, two calls return the same
instance while the creation counter advances exactly once; once an instance
exists, a call returns it unchanged, creating nothing. -/
theorem usePushAPI_singleton (n i : Nat) :
    (usePushAPICall none n).2.2 = n ∧
    (usePushAPICall (usePushAPICall none n).1 (usePushAPICall none n).2.1).2.2 = n ∧
    (usePushAPICall (usePushAPICall none n).1 (usePushAPICall none n).2.1).2.1 = n + 1 ∧
    usePushAPICall (some i) n = (some i, n, i) :=
  ⟨rfl, rfl, rfl, rfl⟩
